import Mathlib

/-!
Verification development for the tassie-discord-bot repository.

The TypeScript sources are shallowly embedded as pure Lean functions:
asynchronous methods become functions over explicit inputs (parsed file
contents, network responses, wall-clock time) that return their result
together with a trace of the side effects that matter here (whether and
what was written to durable storage, how many network calls were made).
JavaScript numbers are modelled as Int, JS strings as Lean String,
JSON values as an inductive; wall-clock fields that no claim touches
(sync duration, completion timestamp) are omitted from the statistics
record.
-/

namespace TassieBot

/-- Mirror of the Result type in src/types.ts: a discriminated union of
a success payload or a BotError. -/
structure BotError where
  message : String
  code : String
deriving DecidableEq, Repr

inductive Result (α : Type) where
  | ok (data : α)
  | err (e : BotError)
deriving DecidableEq, Repr

/-- The error code of a failed Result, none on success. -/
def Result.errCode : Result α → Option String
  | .ok _ => none
  | .err e => some e.code

/-- Mirror of StorageData.metadata in src/types.ts. -/
structure Metadata where
  totalProcessed : Int
  createdAt : Int
  lastUpdated : Int
deriving DecidableEq, Repr

/-- Mirror of StorageData in src/types.ts. -/
structure StorageData where
  postedIds : List String
  lastCheck : Option Int
  version : Int
  metadata : Option Metadata
deriving DecidableEq, Repr

/-- DEFAULT_STORAGE_DATA from src/utils/storage.ts, parametrised by the
wall-clock time at which the module was loaded (Date.now()). -/
def DEFAULT_STORAGE_DATA (t : Int) : StorageData :=
  { postedIds := []
    lastCheck := none
    version := 1
    metadata := some { totalProcessed := 0, createdAt := t, lastUpdated := t } }

/-- RedditStorage.save: the only state change it performs on the in-memory
data is stamping metadata.lastUpdated with the current time (the file write
itself is the effect flag carried by the callers). -/
def saveData (d : StorageData) (now : Int) : StorageData :=
  { d with metadata := d.metadata.map fun m => { m with lastUpdated := now } }

/-- Outcome of a storage mutation: the returned Result, the in-memory data
afterwards, and whether a persistence write (save) was performed. -/
structure StorageOp where
  result : Result Unit
  data : StorageData
  saved : Bool
deriving DecidableEq, Repr

/-- RedditStorage.addPostId from src/utils/storage.ts: no-op when the id is
already present, otherwise push the id, bump totalProcessed (when metadata
exists) and save immediately. -/
def addPostId (d : StorageData) (postId : String) (now : Int) : StorageOp :=
  if d.postedIds.contains postId then
    { result := .ok (), data := d, saved := false }
  else
    let d1 : StorageData :=
      { d with postedIds := d.postedIds ++ [postId]
               metadata := d.metadata.map fun m =>
                 { m with totalProcessed := m.totalProcessed + 1 } }
    { result := .ok (), data := saveData d1 now, saved := true }

/-- The loop body of RedditStorage.addPostIds: walk the requested ids,
pushing each one that is not yet in the (growing) posted list and counting
how many were actually added. -/
def addLoop (posted : List String) : List String → List String × Nat
  | [] => (posted, 0)
  | x :: xs =>
    if posted.contains x then
      addLoop posted xs
    else
      let r := addLoop (posted ++ [x]) xs
      (r.1, r.2 + 1)

/-- RedditStorage.addPostIds from src/utils/storage.ts: add all genuinely
new ids, bump totalProcessed by the added count (when metadata exists and
something was added), and save only if something was added. -/
def addPostIds (d : StorageData) (postIds : List String) (now : Int) : StorageOp :=
  let r := addLoop d.postedIds postIds
  let addedCount := r.2
  let d1 : StorageData := { d with postedIds := r.1 }
  let d2 : StorageData :=
    if 0 < addedCount then
      { d1 with metadata := d1.metadata.map fun m =>
          { m with totalProcessed := m.totalProcessed + (addedCount : Int) } }
    else d1
  if 0 < addedCount then
    { result := .ok (), data := saveData d2 now, saved := true }
  else
    { result := .ok (), data := d2, saved := false }

/-- RedditStorage.clear from src/utils/storage.ts: empty the id list, zero
totalProcessed, stamp lastUpdated, save. -/
def clear (d : StorageData) (now : Int) : StorageOp :=
  let d1 : StorageData :=
    { d with postedIds := []
             metadata := d.metadata.map fun m =>
               { m with totalProcessed := 0, lastUpdated := now } }
  { result := .ok (), data := saveData d1 now, saved := true }

/-- RedditStorage.updateLastCheck: stamp lastCheck with the current time
and save. -/
def updateLastCheck (d : StorageData) (now : Int) : StorageData :=
  saveData { d with lastCheck := some now } now

/-- RedditStorage.hasPostId: membership in the in-memory id list. -/
def hasPostId (d : StorageData) (postId : String) : Bool :=
  d.postedIds.contains postId

/-- The four counters of the SyncStats record in src/bot.ts. The duration
and timestamp fields are wall-clock readings and are not modelled. -/
structure SyncStats where
  postsFound : Nat
  postsSent : Nat
  postsFailed : Nat
  postsFiltered : Nat
deriving DecidableEq, Repr

/-- The SyncStats value performSync starts from (all counters zero). -/
def zeroStats : SyncStats :=
  { postsFound := 0, postsSent := 0, postsFailed := 0, postsFiltered := 0 }

/-- The BotError produced by the catch block of performSync. -/
def syncError : BotError :=
  { message := "Sync operation failed", code := "SYNC_ERROR" }

/-- The OAuth error-code test at the top of performSync in src/bot.ts. -/
def isOAuthSetupCode (c : String) : Bool :=
  c == "OAUTH_NO_TOKENS" || c == "OAUTH_REFRESH_ERROR" || c == "OAUTH_TOKEN_ERROR"

/-- The per-post delivery loop of performSync. Posts are represented by
their ids (the only field performSync inspects); the Discord side is an
oracle sendOk giving the success of the i-th send attempt. Returns
(postsSent, postsFailed, ids of successfully sent posts in order). -/
def deliverLoop (sendOk : Nat → Bool) : List String → Nat → Nat × Nat × List String
  | [], _ => (0, 0, [])
  | p :: ps, i =>
    let r := deliverLoop sendOk ps (i + 1)
    if sendOk i then (r.1 + 1, r.2.1, p :: r.2.2) else (r.1, r.2.1 + 1, r.2.2)

/-- Outcome of one sync cycle: the returned Result, the ledger state
afterwards, and the list of posts the cycle attempted to deliver, in
order. -/
structure SyncOutcome where
  result : Result SyncStats
  storage : StorageData
  attempted : List String
deriving Repr

/-- RedditDiscordBot.performSync from src/bot.ts, over an explicit
environment: the shutdown flag, the result of redditService.fetchNewPosts
(posts represented by their ids), the per-send success oracle, the loaded
ledger state and the wall clock. -/
def performSync (shuttingDown : Bool) (fetch : Result (List String))
    (sendOk : Nat → Bool) (st : StorageData) (now : Int) : SyncOutcome :=
  if shuttingDown then
    { result := .ok zeroStats, storage := st, attempted := [] }
  else
    match fetch with
    | .err e =>
      if isOAuthSetupCode e.code then
        { result := .ok zeroStats, storage := st, attempted := [] }
      else
        { result := .err syncError, storage := st, attempted := [] }
    | .ok allPosts =>
      let found := allPosts.length
      if allPosts.isEmpty then
        { result := .ok { zeroStats with postsFound := found }
          storage := updateLastCheck st now, attempted := [] }
      else
        let newPosts := allPosts.filter fun p => !(hasPostId st p)
        let filtered := found - newPosts.length
        if newPosts.isEmpty then
          { result := .ok { zeroStats with postsFound := found, postsFiltered := filtered }
            storage := updateLastCheck st now, attempted := newPosts }
        else
          let r := deliverLoop sendOk newPosts 0
          let postIds := r.2.2
          let st1 := if postIds.isEmpty then st else (addPostIds st postIds now).data
          let st2 := updateLastCheck st1 now
          { result := .ok { postsFound := found, postsSent := r.1
                            postsFailed := r.2.1, postsFiltered := filtered }
            storage := st2, attempted := newPosts }

/-- JSON values, the shape JSON.parse hands to validateStorageData.
Numbers are modelled as Int; duplicate object keys are not modelled. -/
inductive JVal where
  | jnull
  | jbool (b : Bool)
  | jnum (n : Int)
  | jstr (s : String)
  | jarr (elems : List JVal)
  | jobj (fields : List (String × JVal))

/-- JavaScript truthiness of a JSON value (NaN is not representable). -/
def isTruthy : JVal → Bool
  | .jnull => false
  | .jbool b => b
  | .jnum n => n != 0
  | .jstr s => s != ""
  | .jarr _ => true
  | .jobj _ => true

/-- Whether typeof on the value yields the string "object". -/
def typeofObject : JVal → Bool
  | .jnull => true
  | .jarr _ => true
  | .jobj _ => true
  | _ => false

/-- JavaScript property access on a parsed JSON value: an object field
lookup, undefined (none) everywhere else. -/
def getProp : JVal → String → Option JVal
  | .jobj fields, key => fields.lookup key
  | _, _ => none

/-- Whether a property value is a string (the element check of
validateStorageData). -/
def isStringJ : JVal → Bool
  | .jstr _ => true
  | _ => false

def asString : JVal → Option String
  | .jstr s => some s
  | _ => none

/-- Reading the optional lastCheck field through the unchecked TS cast:
a numeric value is kept, anything else is treated as absent. -/
def decodeLastCheck : Option JVal → Option Int
  | some (.jnum n) => some n
  | _ => none

/-- Reading the optional metadata block through the unchecked TS cast:
kept only when it is an object with the three numeric fields. -/
def decodeMetadata : Option JVal → Option Metadata
  | some (.jobj fields) =>
    match fields.lookup "totalProcessed", fields.lookup "createdAt",
        fields.lookup "lastUpdated" with
    | some (.jnum tp), some (.jnum ca), some (.jnum lu) =>
      some { totalProcessed := tp, createdAt := ca, lastUpdated := lu }
    | _, _, _ => none
  | _ => none

/-- The Array.isArray check of validateStorageData, on an accessed
property (undefined is not an array). -/
def isArrayJ : Option JVal → Bool
  | some (.jarr _) => true
  | _ => false

/-- The typeof x === "number" check of validateStorageData, on an accessed
property. -/
def isNumberJ : Option JVal → Bool
  | some (.jnum _) => true
  | _ => false

/-- The elements of a property known to hold an array (only consulted
behind the isArrayJ guard). -/
def jarrElems : Option JVal → List JVal
  | some (.jarr elems) => elems
  | _ => []

/-- The value of a property known to hold a number (only consulted behind
the isNumberJ guard). -/
def jnumVal : Option JVal → Int
  | some (.jnum n) => n
  | _ => 0

/-- RedditStorage.validateStorageData from src/utils/storage.ts: checks in
order that the parsed value is a truthy object, that postedIds is an array,
that version is a number and that every element of postedIds is a string;
on success the value is cast to StorageData. -/
def validateStorageData (data : JVal) : Result StorageData :=
  if !(isTruthy data && typeofObject data) then
    .err { message := "Storage data is not an object", code := "INVALID_STORAGE_FORMAT" }
  else if !(isArrayJ (getProp data "postedIds")) then
    .err { message := "Storage data postedIds is not an array"
           code := "INVALID_STORAGE_FORMAT" }
  else if !(isNumberJ (getProp data "version")) then
    .err { message := "Storage data version is not a number"
           code := "INVALID_STORAGE_FORMAT" }
  else
    let elems := jarrElems (getProp data "postedIds")
    if 0 < (elems.filter fun e => !(isStringJ e)).length then
      .err { message := "Storage data contains non-string post IDs"
             code := "INVALID_STORAGE_FORMAT" }
    else
      .ok { postedIds := elems.filterMap asString
            lastCheck := decodeLastCheck (getProp data "lastCheck")
            version := jnumVal (getProp data "version")
            metadata := decodeMetadata (getProp data "metadata") }

/-- Outcome of RedditStorage.load: the returned Result, the in-memory data
afterwards, and whether a persistence write was performed. -/
structure LoadOutcome where
  result : Result StorageData
  data : StorageData
  saved : Bool
deriving Repr

/-- RedditStorage.load from src/utils/storage.ts, over the parsed content
of the storage file (none when the file is absent). An absent file causes
the current (default) in-memory data to be saved and returned; a present
file is parsed and validated, a validation failure is returned as-is with
no write and no change to the in-memory data. -/
def load (file : Option JVal) (d : StorageData) (now : Int) : LoadOutcome :=
  match file with
  | none =>
    let d1 := saveData d now
    { result := .ok d1, data := d1, saved := true }
  | some v =>
    match validateStorageData v with
    | .err e => { result := .err e, data := d, saved := false }
    | .ok sd => { result := .ok sd, data := sd, saved := false }

/-- Mirror of StoredTokenData in src/utils/oauth.ts. -/
structure StoredTokenData where
  refreshToken : String
  accessToken : String
  expiresAt : Int
  scope : String
deriving DecidableEq, Repr

/-- Mirror of TokenResponse in src/utils/oauth.ts (the body Reddit returns
from the access_token endpoint). -/
structure TokenResponse where
  access_token : String
  expires_in : Int
  scope : String
  refresh_token : Option String
deriving DecidableEq, Repr

/-- Explicit environment for the token manager: the parsed token file
(none when absent or unreadable), the REDDIT_REFRESH_TOKEN environment
variable, and the outcomes the network would give to a refresh call and to
a code-exchange call. -/
structure OAuthEnv where
  fileTokens : Option StoredTokenData
  envRefreshToken : Option String
  refreshResponse : Result TokenResponse
  exchangeResponse : Result TokenResponse
deriving Repr

/-- The OAUTH_NO_TOKENS error built in src/utils/oauth.ts. -/
def noTokensError : BotError :=
  { message := "No stored tokens found. Please run OAuth2 setup first or set REDDIT_REFRESH_TOKEN environment variable."
    code := "OAUTH_NO_TOKENS" }

/-- The OAUTH_CODE_EXPIRED error built in loadTokenData. -/
def codeExpiredError : BotError :=
  { message := "Authorization code exchange failed. Please generate a new authorization code."
    code := "OAUTH_CODE_EXPIRED" }

/-- Outcome of a token-manager operation: the returned Result, the number
of refresh and exchange network calls performed, and the token record
written to the token file, if any. -/
structure OAuthOutcome where
  result : Result String
  refreshCalls : Nat
  exchangeCalls : Nat
  savedToken : Option StoredTokenData
deriving Repr

/-- RedditOAuth2Manager.refreshAccessToken from src/utils/oauth.ts: one
network call; on success the new record keeps the same refresh token,
takes the fresh access token and expiry now + expires_in seconds, and is
persisted before the access token is returned. -/
def refreshAccessToken (env : OAuthEnv) (refreshToken : String) (now : Int) : OAuthOutcome :=
  match env.refreshResponse with
  | .ok resp =>
    let td : StoredTokenData :=
      { refreshToken := refreshToken
        accessToken := resp.access_token
        expiresAt := now + resp.expires_in * 1000
        scope := resp.scope }
    { result := .ok resp.access_token, refreshCalls := 1, exchangeCalls := 0
      savedToken := some td }
  | .err _ =>
    { result := .err { message := "Failed to refresh OAuth2 access token."
                       code := "OAUTH_REFRESH_ERROR" }
      refreshCalls := 1, exchangeCalls := 0, savedToken := none }

/-- Outcome of exchangeCodeForTokens: the Result and the record written,
if any (always exactly one exchange network call). -/
structure ExchangeOutcome where
  result : Result StoredTokenData
  savedToken : Option StoredTokenData
deriving Repr

/-- RedditOAuth2Manager.exchangeCodeForTokens from src/utils/oauth.ts: one
network call; a response without a refresh token is an error; on success
the record is persisted. -/
def exchangeCodeForTokens (env : OAuthEnv) (now : Int) : ExchangeOutcome :=
  match env.exchangeResponse with
  | .ok resp =>
    match resp.refresh_token with
    | some rt =>
      let td : StoredTokenData :=
        { refreshToken := rt
          accessToken := resp.access_token
          expiresAt := now + resp.expires_in * 1000
          scope := resp.scope }
      { result := .ok td, savedToken := some td }
    | none =>
      { result := .err { message := "Failed to exchange authorization code for tokens"
                         code := "OAUTH_CODE_EXCHANGE_ERROR" }
        savedToken := none }
  | .err _ =>
    { result := .err { message := "Failed to exchange authorization code for tokens"
                       code := "OAUTH_CODE_EXCHANGE_ERROR" }
      savedToken := none }

/-- Outcome of loadTokenData: the Result, exchange calls made and record
written during loading. -/
structure LoadTokenOutcome where
  result : Result StoredTokenData
  exchangeCalls : Nat
  savedToken : Option StoredTokenData
deriving Repr

/-- The heuristic in loadTokenData classifying the environment value as a
one-time authorization code: length over 50 and containing an
underscore. -/
def looksLikeAuthCode (t : String) : Bool :=
  decide (t.length > 50) && t.data.contains '_'

/-- RedditOAuth2Manager.loadTokenData from src/utils/oauth.ts: prefer the
token file; otherwise use the environment value, exchanging it first when
it looks like an authorization code (a failed exchange surfaces
OAUTH_CODE_EXPIRED and is not retried), else treating it as a refresh
token with an empty access token and expiry 0 to force a refresh. -/
def loadTokenData (env : OAuthEnv) (now : Int) : LoadTokenOutcome :=
  match env.fileTokens with
  | some td => { result := .ok td, exchangeCalls := 0, savedToken := none }
  | none =>
    match env.envRefreshToken with
    | some t =>
      if looksLikeAuthCode t then
        let ex := exchangeCodeForTokens env now
        match ex.result with
        | .ok td => { result := .ok td, exchangeCalls := 1, savedToken := ex.savedToken }
        | .err _ => { result := .err codeExpiredError, exchangeCalls := 1, savedToken := none }
      else
        { result := .ok { refreshToken := t, accessToken := "", expiresAt := 0, scope := "read" }
          exchangeCalls := 0, savedToken := none }
    | none => { result := .err noTokensError, exchangeCalls := 0, savedToken := none }

/-- RedditOAuth2Manager.getValidAccessToken from src/utils/oauth.ts: any
load failure is reported as the generic OAUTH_NO_TOKENS error; a token
whose expiry is strictly beyond now plus the five-minute buffer is
returned as-is with no network call; otherwise one refresh is performed. -/
def getValidAccessToken (env : OAuthEnv) (now : Int) : OAuthOutcome :=
  let ld := loadTokenData env now
  match ld.result with
  | .err _ =>
    { result := .err noTokensError, refreshCalls := 0
      exchangeCalls := ld.exchangeCalls, savedToken := ld.savedToken }
  | .ok td =>
    if td.expiresAt > now + 5 * 60 * 1000 then
      { result := .ok td.accessToken, refreshCalls := 0
        exchangeCalls := ld.exchangeCalls, savedToken := ld.savedToken }
    else
      let r := refreshAccessToken env td.refreshToken now
      { result := r.result, refreshCalls := r.refreshCalls
        exchangeCalls := ld.exchangeCalls
        savedToken := match r.savedToken with
                      | some v => some v
                      | none => ld.savedToken }

/-- What one webhook attempt in DiscordService.sendWithRetry observes from
axios: either an HTTP response with its status code (axios resolves only
2xx; any other status is surfaced as an error carrying that status), or a
network failure without a response. -/
inductive AttemptOutcome where
  | status (code : Nat)
  | netError
deriving DecidableEq, Repr

/-- Result of DiscordService.sendWithRetry: overall success, number of
underlying send attempts performed, and the last underlying error, if
any. -/
structure RetryOutcome where
  success : Bool
  attemptsMade : Nat
  lastError : Option AttemptOutcome
deriving DecidableEq, Repr

/-- The attempt loop of DiscordService.sendWithRetry from
src/services/discord.service.ts: a 2xx status succeeds immediately; a 4xx
status breaks the loop (terminal, no retry); any other status and any
network error retry until the fuel (remaining attempts) runs out. The
attempt counter is 1-indexed as in the source. -/
def sendLoop (attempts : Nat → AttemptOutcome) : Nat → Nat → Option AttemptOutcome → RetryOutcome
  | 0, attempt, lastErr => { success := false, attemptsMade := attempt - 1, lastError := lastErr }
  | fuel + 1, attempt, lastErr =>
    match attempts attempt with
    | .status s =>
      if 200 ≤ s ∧ s < 300 then
        { success := true, attemptsMade := attempt, lastError := lastErr }
      else if 400 ≤ s ∧ s < 500 then
        { success := false, attemptsMade := attempt, lastError := some (.status s) }
      else
        sendLoop attempts fuel (attempt + 1) (some (.status s))
    | .netError => sendLoop attempts fuel (attempt + 1) (some .netError)

/-- DiscordService.sendWithRetry: at most maxRetries = 3 attempts, starting
from attempt 1. -/
def sendWithRetry (attempts : Nat → AttemptOutcome) : RetryOutcome :=
  sendLoop attempts 3 1 none

/-- Truth of the this.lastSync guard in getHealthStatus (a JS number is
falsy exactly when it is 0; an undefined lastSync is falsy). -/
def lastSyncTruthy : Option Int → Bool
  | some t => t != 0
  | none => false

/-- The age test Date.now() - this.lastSync > 3600000 (undefined lastSync
never reaches it, modelled as false). -/
def lastSyncStale (lastSync : Option Int) (now : Int) : Bool :=
  match lastSync with
  | some t => decide (now - t > 3600000)
  | none => false

/-- The status derivation of RedditDiscordBot.getHealthStatus from
src/bot.ts: unhealthy when errors exist and a truthy lastSync is over an
hour old; degraded when errors exist otherwise; healthy with no errors. -/
def getHealthStatus (totalErrors : Nat) (lastSync : Option Int) (now : Int) : String :=
  if 0 < totalErrors && lastSyncTruthy lastSync && lastSyncStale lastSync now then
    "unhealthy"
  else if 0 < totalErrors then
    "degraded"
  else
    "healthy"

/-- The title field of DiscordService.formatRedditPostAsEmbed (identical in
src/services/discord.service.ts): titles longer than 256 characters are cut
to their first 253 characters followed by the three-dot ellipsis marker. -/
def embedTitle (title : String) : String :=
  if title.length > 256 then title.take 253 ++ "..." else title

/-- One mutating ledger operation, with the wall-clock reading at which it
happens. -/
inductive LedgerOp where
  | add (id : String) (now : Int)
  | addMany (ids : List String) (now : Int)
  | clearAll (now : Int)

/-- Apply one ledger operation to the in-memory storage state. -/
def applyOp (d : StorageData) : LedgerOp → StorageData
  | .add id now => (addPostId d id now).data
  | .addMany ids now => (addPostIds d ids now).data
  | .clearAll now => (clear d now).data

/-- The invariant relating the metadata counter to the ledger contents:
when metadata is present, totalProcessed equals the number of stored
identifiers. -/
def counterOk (d : StorageData) : Bool :=
  match d.metadata with
  | some m => m.totalProcessed == (d.postedIds.length : Int)
  | none => true

/-- A concrete token-manager environment: no token file, an environment
value that the heuristic classifies as a one-time authorization code
(61 characters, containing underscores), and an upstream that rejects the
exchange. -/
def expiredCodeEnv : OAuthEnv :=
  { fileTokens := none
    envRefreshToken := some "123456789_123456789_123456789_123456789_123456789_123456789_"
    refreshResponse := .err { message := "unused", code := "NETWORK" }
    exchangeResponse := .err { message := "invalid_grant", code := "HTTP_400" } }

/-- A concrete stored token record expiring 400 seconds after epoch. -/
def freshTokenRecord : StoredTokenData :=
  { refreshToken := "refresh-1", accessToken := "access-1", expiresAt := 400000, scope := "read" }

/-- A concrete stored token record expiring 4 minutes after epoch. -/
def nearExpiryTokenRecord : StoredTokenData :=
  { refreshToken := "refresh-2", accessToken := "access-2", expiresAt := 240000, scope := "read" }

/-- A concrete successful refresh response. -/
def refreshResponseOk : TokenResponse :=
  { access_token := "access-3", expires_in := 3600, scope := "read", refresh_token := none }

/-- Token-manager environment whose stored record is still fresh at time
zero. -/
def freshTokenEnv : OAuthEnv :=
  { fileTokens := some freshTokenRecord
    envRefreshToken := none
    refreshResponse := .ok refreshResponseOk
    exchangeResponse := .err { message := "unused", code := "HTTP_400" } }

/-- Token-manager environment whose stored record expires within the
five-minute buffer at time zero. -/
def nearExpiryTokenEnv : OAuthEnv :=
  { fileTokens := some nearExpiryTokenRecord
    envRefreshToken := none
    refreshResponse := .ok refreshResponseOk
    exchangeResponse := .err { message := "unused", code := "HTTP_400" } }

/-- A concrete ledger state holding identifiers A and B with a matching
processed counter. -/
def ledgerAB : StorageData :=
  { postedIds := ["A", "B"]
    lastCheck := none
    version := 1
    metadata := some { totalProcessed := 2, createdAt := 0, lastUpdated := 0 } }

/-- A concrete 300-character title. -/
def longTitle : String := String.mk (List.replicate 300 'a')

/-- A persisted structure whose postedIds field is not an array. -/
def badIdsFile : JVal := .jobj [("postedIds", .jnum 5), ("version", .jnum 1)]

/-- A persisted structure whose version field is not a number. -/
def badVersionFile : JVal := .jobj [("postedIds", .jarr []), ("version", .jstr "one")]

/-- A persisted structure whose postedIds contains a non-string element. -/
def badElementFile : JVal :=
  .jobj [("postedIds", .jarr [.jstr "a", .jnum 3]), ("version", .jnum 1)]

/-! Helper lemmas about the embedded operations. -/

theorem addLoop_count (xs : List String) : ∀ posted : List String,
    (addLoop posted xs).2 = (xs.toFinset \ posted.toFinset).card := by
  induction xs with
  | nil => intro posted; simp [addLoop]
  | cons x xs ih =>
    intro posted
    by_cases h : posted.contains x
    · have hx : x ∈ posted.toFinset := by
        simp only [List.mem_toFinset]
        simpa using h
      simp only [addLoop, h, if_true, ih, List.toFinset_cons]
      rw [Finset.insert_sdiff_of_mem _ hx]
    · have hx : x ∉ posted.toFinset := by
        simp only [List.mem_toFinset]
        simpa using h
      have hmem : x ∉ posted := by simpa using h
      have step : (addLoop posted (x :: xs)).2 = (addLoop (posted ++ [x]) xs).2 + 1 := by
        simp [addLoop, h, hmem]
      rw [step, ih]
      have hset : xs.toFinset \ (posted ++ [x]).toFinset =
          (xs.toFinset \ posted.toFinset).erase x := by
        ext a
        simp only [List.toFinset_append, Finset.mem_sdiff, Finset.mem_erase,
          Finset.mem_union, List.mem_toFinset, List.mem_singleton]
        tauto
      rw [hset, List.toFinset_cons, Finset.insert_sdiff_of_not_mem _ hx]
      by_cases hm : x ∈ xs.toFinset \ posted.toFinset
      · rw [Finset.card_erase_add_one hm, Finset.insert_eq_self.mpr hm]
      · rw [Finset.erase_eq_of_not_mem hm, Finset.card_insert_of_not_mem hm]

theorem addLoop_len (xs : List String) : ∀ posted : List String,
    (addLoop posted xs).1.length = posted.length + (addLoop posted xs).2 := by
  induction xs with
  | nil => intro posted; simp [addLoop]
  | cons x xs ih =>
    intro posted
    by_cases h : posted.contains x
    · simp only [addLoop, h, if_true]
      exact ih posted
    · simp only [addLoop, h, if_false, Bool.false_eq_true]
      have := ih (posted ++ [x])
      simp only [List.length_append, List.length_cons, List.length_nil] at this
      omega

theorem addLoop_all_mem (xs : List String) : ∀ posted : List String,
    (∀ y ∈ xs, posted.contains y = true) → addLoop posted xs = (posted, 0) := by
  induction xs with
  | nil => intro posted _; rfl
  | cons x xs ih =>
    intro posted h
    have hx : posted.contains x = true := h x (by simp)
    simp only [addLoop, hx, if_true]
    exact ih posted fun y hy => h y (by simp [hy])

theorem sendLoop_attempts_le (attempts : Nat → AttemptOutcome) :
    ∀ (fuel attempt : Nat) (lastErr : Option AttemptOutcome),
    (sendLoop attempts fuel attempt lastErr).attemptsMade ≤ attempt - 1 + fuel := by
  intro fuel
  induction fuel with
  | zero => intro attempt lastErr; simp [sendLoop]
  | succ fuel ih =>
    intro attempt lastErr
    cases h : attempts attempt with
    | status s =>
      simp only [sendLoop, h]
      by_cases h1 : 200 ≤ s ∧ s < 300
      · rw [if_pos h1]
        show attempt ≤ attempt - 1 + (fuel + 1)
        omega
      · rw [if_neg h1]
        by_cases h2 : 400 ≤ s ∧ s < 500
        · rw [if_pos h2]
          show attempt ≤ attempt - 1 + (fuel + 1)
          omega
        · rw [if_neg h2]
          have := ih (attempt + 1) (some (.status s))
          omega
    | netError =>
      simp only [sendLoop, h]
      have := ih (attempt + 1) (some .netError)
      omega

/-! Claim theorems. -/

/-- C1: in a sync cycle, a fetch failure whose error code is one of
OAUTH_NO_TOKENS, OAUTH_REFRESH_ERROR or OAUTH_TOKEN_ERROR makes
performSync return a successful result with all four statistics counters
zero (and leaves the ledger untouched, attempting no delivery), while a
fetch failure with any other code makes performSync return a failed
SYNC_ERROR result. -/
theorem performSync_fetch_failure (e : BotError) (sendOk : Nat → Bool)
    (st : StorageData) (now : Int) :
    performSync false (.err e) sendOk st now =
      (if isOAuthSetupCode e.code then
        { result := .ok zeroStats, storage := st, attempted := [] }
      else
        { result := .err syncError, storage := st, attempted := [] }) := by
  by_cases h : isOAuthSetupCode e.code <;> simp [performSync, h]

/-- C2: on a successful fetch, the posts a sync cycle attempts to deliver
are exactly the fetched posts whose id is not already in the ledger, in
fetch order; concretely, with ledger containing A and B, fetching
A, B, C, D and every delivery succeeding, exactly C then D are attempted,
afterwards the ledger holds A, B, C, D and the processed counter has risen
from 2 to 4. -/
theorem performSync_filters_ledger :
    (∀ (xs : List String) (st : StorageData) (sendOk : Nat → Bool) (now : Int),
      (performSync false (.ok xs) sendOk st now).attempted =
        xs.filter fun p => !(st.postedIds.contains p)) ∧
    ((performSync false (.ok ["A", "B", "C", "D"]) (fun _ => true) ledgerAB 5).attempted
        = ["C", "D"] ∧
      (performSync false (.ok ["A", "B", "C", "D"]) (fun _ => true) ledgerAB 5).result =
        .ok { postsFound := 4, postsSent := 2, postsFailed := 0, postsFiltered := 2 } ∧
      (performSync false (.ok ["A", "B", "C", "D"]) (fun _ => true) ledgerAB 5).storage.postedIds
        = ["A", "B", "C", "D"] ∧
      (performSync false (.ok ["A", "B", "C", "D"]) (fun _ => true) ledgerAB
          5).storage.metadata.map Metadata.totalProcessed = some 4) := by
  constructor
  · intro xs st sendOk now
    by_cases hxs : xs.isEmpty
    · rw [List.isEmpty_iff] at hxs
      subst hxs
      simp [performSync]
    · simp only [performSync, if_false, Bool.false_eq_true, hasPostId]
      split <;> rename_i hsplit
      · exact absurd hsplit hxs
      · split <;> rfl
  · refine ⟨by decide, by decide, by decide, by decide⟩

/-- C3: a webhook delivery makes at most 3 underlying send attempts; two
failures with status 500 followed by a 2xx yield overall success after
exactly 3 attempts, and a first attempt failing with any 4xx status (such
as 404) yields overall failure after exactly 1 attempt, carrying that last
underlying error. -/
theorem sendWithRetry_bounded (attempts : Nat → AttemptOutcome) (s : Nat)
    (h4 : 400 ≤ s) (h5 : s < 500) :
    (sendWithRetry attempts).attemptsMade ≤ 3 ∧
    sendWithRetry (fun i => if i ≤ 2 then .status 500 else .status 204) =
      { success := true, attemptsMade := 3, lastError := some (.status 500) } ∧
    sendWithRetry (fun _ => .status s) =
      { success := false, attemptsMade := 1, lastError := some (.status s) } := by
  refine ⟨?_, by decide, ?_⟩
  · have h := sendLoop_attempts_le attempts 3 1 none
    simpa [sendWithRetry] using h
  · have h0 : sendWithRetry (fun _ => .status s) =
        (if 200 ≤ s ∧ s < 300 then
          ({ success := true, attemptsMade := 1, lastError := none } : RetryOutcome)
        else if 400 ≤ s ∧ s < 500 then
          { success := false, attemptsMade := 1, lastError := some (.status s) }
        else sendLoop (fun _ => .status s) 2 2 (some (.status s))) := rfl
    rw [h0, if_neg (by omega), if_pos ⟨h4, h5⟩]

/-- Closed witness for C3: instantiated with a first attempt failing with
status 404. -/
theorem sendWithRetry_bounded_witness :
    (sendWithRetry (fun _ => .status 404)).attemptsMade ≤ 3 ∧
    sendWithRetry (fun i => if i ≤ 2 then .status 500 else .status 204) =
      { success := true, attemptsMade := 3, lastError := some (.status 500) } ∧
    sendWithRetry (fun _ => .status 404) =
      { success := false, attemptsMade := 1, lastError := some (.status 404) } :=
  sendWithRetry_bounded (fun _ => .status 404) 404 (by decide) (by decide)

/-- C9: the formatted embed title is the post title itself when that is at
most 256 characters long, and otherwise its first 253 characters followed
by the three-character ellipsis marker, 256 characters in total. -/
theorem embedTitle_truncation (t : String) :
    (t.length ≤ 256 → embedTitle t = t) ∧
    (t.length > 256 → embedTitle t = t.take 253 ++ "..." ∧ (embedTitle t).length = 256) := by
  constructor
  · intro h
    simp [embedTitle, Nat.not_lt.mpr h]
  · intro h
    have he : embedTitle t = t.take 253 ++ "..." := by simp [embedTitle, h]
    refine ⟨he, ?_⟩
    rw [he, String.length_append, String.take_eq]
    have h1 : (String.mk (t.data.take 253)).length = min 253 t.data.length :=
      List.length_take 253 t.data
    have h2 : t.length = t.data.length := rfl
    have h3 : ("..." : String).length = 3 := rfl
    omega

set_option maxRecDepth 4000 in
/-- Closed witness for C9: a 300-character title truncates to exactly 256
characters (253 plus the marker), and a short title is kept verbatim. -/
theorem embedTitle_truncation_witness :
    ("short".length ≤ 256 ∧ embedTitle "short" = "short") ∧
    (longTitle.length > 256 ∧ embedTitle longTitle = longTitle.take 253 ++ "..." ∧
      (embedTitle longTitle).length = 256) :=
  ⟨⟨by decide, (embedTitle_truncation "short").1 (by decide)⟩,
    ⟨by decide, (embedTitle_truncation longTitle).2 (by decide)⟩⟩

/-- C4: adding an identifier already in the ledger changes nothing and
performs no persistence write; adding a batch of identifiers that are all
already present performs no write either; and a batch add raises the
processed counter by exactly the number of genuinely new identifiers (the
cardinality of the set of batch ids minus the stored ids). -/
theorem addPostId_idempotent (d : StorageData) (x : String) (xs : List String)
    (now : Int) (m : Metadata) :
    (x ∈ d.postedIds →
      addPostId d x now = { result := .ok (), data := d, saved := false }) ∧
    ((∀ y ∈ xs, y ∈ d.postedIds) →
      addPostIds d xs now = { result := .ok (), data := d, saved := false }) ∧
    (d.metadata = some m →
      (addPostIds d xs now).data.metadata.map Metadata.totalProcessed =
        some (m.totalProcessed + ((xs.toFinset \ d.postedIds.toFinset).card : Int))) := by
  refine ⟨?_, ?_, ?_⟩
  · intro h
    have hc : d.postedIds.contains x = true := by simpa using h
    simp [addPostId, hc, h]
  · intro h
    have hall : ∀ y ∈ xs, d.postedIds.contains y = true := fun y hy => by
      simpa using h y hy
    have hz := addLoop_all_mem xs d.postedIds hall
    simp [addPostIds, hz]
  · intro hm
    have hcount := addLoop_count xs d.postedIds
    by_cases hpos : 0 < (addLoop d.postedIds xs).2
    · simp only [addPostIds, hpos, if_true, saveData, hm, Option.map_map, Option.map_some]
      rw [← hcount]
      rfl
    · have hz : (addLoop d.postedIds xs).2 = 0 := by omega
      have hcard : ((xs.toFinset \ d.postedIds.toFinset).card : Int) = 0 := by
        rw [← hcount, hz]; rfl
      simp only [addPostIds, hpos, if_false, hm, hcard, Option.map_some]
      simp

/-- Closed witness for C4: on a ledger holding A and B with counter 2,
re-adding A is a silent no-op, batch-adding A and B writes nothing, and
the counter rises by the zero genuinely new identifiers. -/
theorem addPostId_idempotent_witness :
    addPostId ledgerAB "A" 9 = { result := .ok (), data := ledgerAB, saved := false } ∧
    addPostIds ledgerAB ["A", "B"] 9 = { result := .ok (), data := ledgerAB, saved := false } ∧
    (addPostIds ledgerAB ["A", "B"] 9).data.metadata.map Metadata.totalProcessed =
      some ((2 : Int) +
        (((["A", "B"] : List String).toFinset \ ledgerAB.postedIds.toFinset).card : Int)) := by
  have h := addPostId_idempotent ledgerAB "A" ["A", "B"] 9
    { totalProcessed := 2, createdAt := 0, lastUpdated := 0 }
  exact ⟨h.1 (by decide), h.2.1 (by decide), h.2.2 (by decide)⟩

/-- C5: with a stored token record whose expiry lies strictly more than
the five-minute buffer beyond the current time, getValidAccessToken
returns the stored access credential with no refresh call and no write;
otherwise it performs exactly one refresh call and, when the upstream
refresh succeeds, persists a record with the same refresh credential and
the new access credential and expiry before returning the new access
credential. -/
theorem getValidAccessToken_reuse (env : OAuthEnv) (td : StoredTokenData)
    (resp : TokenResponse) (now : Int) (hf : env.fileTokens = some td) :
    (td.expiresAt > now + 5 * 60 * 1000 →
      getValidAccessToken env now =
        { result := .ok td.accessToken, refreshCalls := 0, exchangeCalls := 0
          savedToken := none }) ∧
    (td.expiresAt ≤ now + 5 * 60 * 1000 →
      (getValidAccessToken env now).refreshCalls = 1 ∧
      (env.refreshResponse = .ok resp →
        getValidAccessToken env now =
          { result := .ok resp.access_token, refreshCalls := 1, exchangeCalls := 0
            savedToken := some { refreshToken := td.refreshToken
                                 accessToken := resp.access_token
                                 expiresAt := now + resp.expires_in * 1000
                                 scope := resp.scope } })) := by
  constructor
  · intro h
    have h' : now + 300000 < td.expiresAt := by omega
    simp [getValidAccessToken, loadTokenData, hf, h']
  · intro h
    have h' : ¬ (now + 300000 < td.expiresAt) := by omega
    constructor
    · cases hr : env.refreshResponse <;>
        simp [getValidAccessToken, loadTokenData, hf, h', refreshAccessToken, hr]
    · intro hr
      simp [getValidAccessToken, loadTokenData, hf, h', refreshAccessToken, hr]

/-- Closed witness for C5: a record expiring 400 seconds in the future is
reused with no refresh call; a record expiring 4 minutes in the future
triggers exactly one refresh call and the refreshed record is persisted. -/
theorem getValidAccessToken_reuse_witness :
    getValidAccessToken freshTokenEnv 0 =
      { result := .ok "access-1", refreshCalls := 0, exchangeCalls := 0
        savedToken := none } ∧
    getValidAccessToken nearExpiryTokenEnv 0 =
      { result := .ok "access-3", refreshCalls := 1, exchangeCalls := 0
        savedToken := some { refreshToken := "refresh-2", accessToken := "access-3"
                             expiresAt := 3600000, scope := "read" } } := by
  constructor
  · exact (getValidAccessToken_reuse freshTokenEnv freshTokenRecord
      refreshResponseOk 0 rfl).1 (by decide)
  · exact ((getValidAccessToken_reuse nearExpiryTokenEnv nearExpiryTokenRecord
      refreshResponseOk 0 rfl).2 (by decide)).2 rfl

/-- C6 counterexample: in the concrete environment where no token file
exists, the environment value is classified as a one-time authorization
code and the upstream rejects its exchange, getValidAccessToken reports
the generic OAUTH_NO_TOKENS code, not the distinct OAUTH_CODE_EXPIRED code
the claim asserts it surfaces. -/
theorem expired_code_not_surfaced :
    (getValidAccessToken expiredCodeEnv 0).result.errCode = some "OAUTH_NO_TOKENS" ∧
    ¬ (getValidAccessToken expiredCodeEnv 0).result.errCode = some "OAUTH_CODE_EXPIRED" := by
  decide

/-- C6 amended: when the environment-supplied fallback credential is
classified as a one-time authorization code (length over 50, containing an
underscore) and its exchange fails, the exchange is attempted exactly once
(never retried) and loadTokenData produces the distinct OAUTH_CODE_EXPIRED
error, but getValidAccessToken itself reports the failure with the generic
OAUTH_NO_TOKENS no-stored-credential error. -/
theorem expired_code_amended (env : OAuthEnv) (t : String) (e : BotError) (now : Int)
    (h1 : env.fileTokens = none) (h2 : env.envRefreshToken = some t)
    (h3 : looksLikeAuthCode t = true) (h4 : env.exchangeResponse = .err e) :
    (loadTokenData env now).result = .err codeExpiredError ∧
    (getValidAccessToken env now).exchangeCalls = 1 ∧
    (getValidAccessToken env now).result = .err noTokensError := by
  simp [loadTokenData, getValidAccessToken, exchangeCodeForTokens, h1, h2, h3, h4]

set_option maxRecDepth 4000 in
/-- Closed witness for the amended C6, at the concrete expired-code
environment. -/
theorem expired_code_amended_witness :
    (loadTokenData expiredCodeEnv 0).result = .err codeExpiredError ∧
    (getValidAccessToken expiredCodeEnv 0).exchangeCalls = 1 ∧
    (getValidAccessToken expiredCodeEnv 0).result = .err noTokensError :=
  expired_code_amended expiredCodeEnv
    "123456789_123456789_123456789_123456789_123456789_123456789_"
    { message := "invalid_grant", code := "HTTP_400" } 0 rfl rfl (by decide) rfl

/-- C7 counterexample: with one recorded error and no successful sync
ever (lastSync undefined), two hours into the epoch, the derived health
status is degraded, not the unhealthy the claim asserts for the
never-synced case. -/
theorem health_never_synced_counterexample :
    getHealthStatus 1 none 7200000 = "degraded" ∧
    getHealthStatus 1 none 7200000 ≠ "unhealthy" := by
  decide

/-- C7 amended: the derived status is healthy exactly when the error
counter is zero; unhealthy exactly when errors exist and a recorded,
truthy (nonzero) last successful sync lies more than an hour before now;
and degraded exactly when errors exist otherwise - in particular a process
with errors and no successful sync ever is degraded, not unhealthy. -/
theorem health_status_amended (totalErrors : Nat) (lastSync : Option Int) (now : Int) :
    (getHealthStatus totalErrors lastSync now = "healthy" ↔ totalErrors = 0) ∧
    (getHealthStatus totalErrors lastSync now = "unhealthy" ↔
      0 < totalErrors ∧ ∃ t, lastSync = some t ∧ t ≠ 0 ∧ now - t > 3600000) ∧
    (getHealthStatus totalErrors lastSync now = "degraded" ↔
      0 < totalErrors ∧ ¬ ∃ t, lastSync = some t ∧ t ≠ 0 ∧ now - t > 3600000) := by
  have hdh : ("degraded" : String) ≠ "healthy" := by decide
  have hdu : ("degraded" : String) ≠ "unhealthy" := by decide
  have huh : ("unhealthy" : String) ≠ "healthy" := by decide
  have hud : ("unhealthy" : String) ≠ "degraded" := by decide
  have hhu : ("healthy" : String) ≠ "unhealthy" := by decide
  have hhd : ("healthy" : String) ≠ "degraded" := by decide
  cases lastSync with
  | none =>
    by_cases he : 0 < totalErrors
    · have hval : getHealthStatus totalErrors none now = "degraded" := by
        simp [getHealthStatus, lastSyncTruthy, lastSyncStale, he]
      rw [hval]
      refine ⟨⟨fun h => absurd h hdh, fun h => by omega⟩, ?_, ?_⟩
      · simp [hdu]
      · simp [he]
    · have he0 : totalErrors = 0 := by omega
      subst he0
      have hval : getHealthStatus 0 none now = "healthy" := by
        simp [getHealthStatus]
      rw [hval]
      exact ⟨by simp, by simp [hhu], by simp [hhd]⟩
  | some t =>
    by_cases he : 0 < totalErrors
    · by_cases hstale : t ≠ 0 ∧ now - t > 3600000
      · have hval : getHealthStatus totalErrors (some t) now = "unhealthy" := by
          simp [getHealthStatus, lastSyncTruthy, lastSyncStale, he, hstale.1, hstale.2]
        rw [hval]
        refine ⟨⟨fun h => absurd h huh, fun h0 => by omega⟩, ?_, ?_⟩
        · exact ⟨fun _ => ⟨he, t, rfl, hstale.1, hstale.2⟩, fun _ => rfl⟩
        · constructor
          · intro h; exact absurd h hud
          · rintro ⟨-, hno⟩
            exact absurd ⟨t, rfl, hstale.1, hstale.2⟩ hno
      · have hval : getHealthStatus totalErrors (some t) now = "degraded" := by
          rcases not_and_or.mp hstale with h0 | h1
          · have h0' : t = 0 := by tauto
            subst h0'
            simp [getHealthStatus, lastSyncTruthy, he]
          · have h1' : ¬ (now - t > 3600000) := h1
            simp [getHealthStatus, lastSyncTruthy, lastSyncStale, h1', he]
        rw [hval]
        refine ⟨⟨fun h => absurd h hdh, fun h0 => by omega⟩, ?_, ?_⟩
        · constructor
          · intro h; exact absurd h hdu
          · rintro ⟨-, t', ht', hcond⟩
            injection ht' with ht'
            subst ht'
            exact absurd hcond hstale
        · constructor
          · intro _
            refine ⟨he, ?_⟩
            rintro ⟨t', ht', hcond⟩
            injection ht' with ht'
            subst ht'
            exact hstale hcond
          · intro _; rfl
    · have he0 : totalErrors = 0 := by omega
      subst he0
      have hval : getHealthStatus 0 (some t) now = "healthy" := by
        simp [getHealthStatus]
      rw [hval]
      exact ⟨by simp, by simp [hhu], by simp [hhd]⟩

theorem getProp_some (v : JVal) (k : String) (w : JVal) (h : getProp v k = some w) :
    isTruthy v = true ∧ typeofObject v = true := by
  cases v <;> simp_all [getProp, isTruthy, typeofObject]

/-- C8: loading from an absent persisted file succeeds, returning (and
immediately persisting) the empty default ledger; loading a persisted
structure fails with the validation error as-is, writing nothing and
leaving the in-memory data untouched, and the validation rejects with
INVALID_STORAGE_FORMAT whenever postedIds is not an array, whenever
version is not a number, and whenever postedIds contains a non-string
element. -/
theorem load_validation (v : JVal) (d : StorageData) (e : BotError)
    (now t : Int) (elems : List JVal) :
    ((load none (DEFAULT_STORAGE_DATA t) now).result =
        .ok (saveData (DEFAULT_STORAGE_DATA t) now) ∧
      (load none (DEFAULT_STORAGE_DATA t) now).saved = true ∧
      (load none (DEFAULT_STORAGE_DATA t) now).data.postedIds = []) ∧
    (validateStorageData v = .err e →
      load (some v) d now = { result := .err e, data := d, saved := false }) ∧
    (isArrayJ (getProp v "postedIds") = false →
      (validateStorageData v).errCode = some "INVALID_STORAGE_FORMAT") ∧
    (getProp v "postedIds" = some (.jarr elems) →
      isNumberJ (getProp v "version") = false →
      (validateStorageData v).errCode = some "INVALID_STORAGE_FORMAT") ∧
    (getProp v "postedIds" = some (.jarr elems) →
      (∃ x ∈ elems, isStringJ x = false) →
      (validateStorageData v).errCode = some "INVALID_STORAGE_FORMAT") := by
  refine ⟨⟨rfl, rfl, rfl⟩, ?_, ?_, ?_, ?_⟩
  · intro hv
    simp [load, hv]
  · intro hn
    by_cases ht : isTruthy v && typeofObject v
    · simp [validateStorageData, ht, hn, Result.errCode]
    · simp [validateStorageData, ht, Result.errCode]
  · intro hp hn
    obtain ⟨ht1, ht2⟩ := getProp_some v "postedIds" _ hp
    simp [validateStorageData, ht1, ht2, hp, isArrayJ, hn, Result.errCode]
  · intro hp hx
    obtain ⟨ht1, ht2⟩ := getProp_some v "postedIds" _ hp
    by_cases hn : isNumberJ (getProp v "version") = true
    · have hlen : 0 < (elems.filter fun x => !(isStringJ x)).length := by
        obtain ⟨x, hxmem, hxs⟩ := hx
        have hmem : x ∈ elems.filter fun x => !(isStringJ x) := by
          simp [List.mem_filter, hxmem, hxs]
        exact List.length_pos_of_mem hmem
      simp [validateStorageData, ht1, ht2, hp, isArrayJ, hn, jarrElems, hlen, Result.errCode]
    · simp [validateStorageData, ht1, ht2, hp, isArrayJ, hn, Result.errCode]

/-- Closed witness for C8: load on the absent file at default state, and
validation of three concrete malformed files (postedIds not an array,
version not a number, a numeric element among the ids). -/
theorem load_validation_witness :
    load (some badIdsFile) (DEFAULT_STORAGE_DATA 0) 1 =
      { result := .err { message := "Storage data postedIds is not an array"
                         code := "INVALID_STORAGE_FORMAT" }
        data := DEFAULT_STORAGE_DATA 0, saved := false } ∧
    (validateStorageData badIdsFile).errCode = some "INVALID_STORAGE_FORMAT" ∧
    (validateStorageData badVersionFile).errCode = some "INVALID_STORAGE_FORMAT" ∧
    (validateStorageData badElementFile).errCode = some "INVALID_STORAGE_FORMAT" := by
  refine ⟨?_, ?_, ?_, ?_⟩
  · exact (load_validation badIdsFile (DEFAULT_STORAGE_DATA 0)
      { message := "Storage data postedIds is not an array"
        code := "INVALID_STORAGE_FORMAT" } 1 0 []).2.1 (by decide)
  · exact (load_validation badIdsFile (DEFAULT_STORAGE_DATA 0)
      { message := "", code := "" } 1 0 []).2.2.1 (by decide)
  · exact (load_validation badVersionFile (DEFAULT_STORAGE_DATA 0)
      { message := "", code := "" } 1 0 []).2.2.2.1 rfl (by decide)
  · exact (load_validation badElementFile (DEFAULT_STORAGE_DATA 0)
      { message := "", code := "" } 1 0 [.jstr "a", .jnum 3]).2.2.2.2
      rfl ⟨.jnum 3, by simp, by decide⟩

theorem counterOk_applyOp (d : StorageData) (op : LedgerOp)
    (h : counterOk d = true) : counterOk (applyOp d op) = true := by
  cases op with
  | add id now =>
    by_cases hc : d.postedIds.contains id
    · have hmem : id ∈ d.postedIds := by simpa using hc
      simpa [applyOp, addPostId, hmem] using h
    · have hmem : ¬ id ∈ d.postedIds := by simpa using hc
      cases hm : d.metadata with
      | none => simp [applyOp, addPostId, hmem, counterOk, saveData, hm]
      | some m =>
        have hh : m.totalProcessed = (d.postedIds.length : Int) := by
          simpa [counterOk, hm] using h
        simp [applyOp, addPostId, hmem, counterOk, saveData, hm, hh]
  | addMany ids now =>
    have hlen := addLoop_len ids d.postedIds
    by_cases hpos : 0 < (addLoop d.postedIds ids).2
    · cases hm : d.metadata with
      | none => simp [applyOp, addPostIds, hpos, counterOk, saveData, hm]
      | some m =>
        have hh : m.totalProcessed = (d.postedIds.length : Int) := by
          simpa [counterOk, hm] using h
        simp [applyOp, addPostIds, hpos, counterOk, saveData, hm, hh, hlen]
    · have hz : (addLoop d.postedIds ids).2 = 0 := by omega
      cases hm : d.metadata with
      | none => simp [applyOp, addPostIds, hpos, counterOk, hm]
      | some m =>
        have hh : m.totalProcessed = (d.postedIds.length : Int) := by
          simpa [counterOk, hm] using h
        simp [applyOp, addPostIds, hpos, counterOk, hm, hh, hlen, hz]
  | clearAll now =>
    cases hm : d.metadata <;> simp [applyOp, clear, counterOk, saveData, hm]

theorem counterOk_foldl (ops : List LedgerOp) : ∀ d : StorageData,
    counterOk d = true → counterOk (ops.foldl applyOp d) = true := by
  induction ops with
  | nil => intro d h; simpa using h
  | cons op ops ih =>
    intro d h
    exact ih _ (counterOk_applyOp d op h)

/-- C10: every addPostId, addPostIds and clear operation preserves the
equality between the metadata counter totalProcessed and the number of
stored identifiers, and from the default empty ledger any sequence of
these operations keeps the two equal. -/
theorem ledger_counter_invariant (ops : List LedgerOp) (d : StorageData)
    (op : LedgerOp) (t : Int) :
    (counterOk d = true → counterOk (applyOp d op) = true) ∧
    counterOk (ops.foldl applyOp (DEFAULT_STORAGE_DATA t)) = true := by
  refine ⟨counterOk_applyOp d op, counterOk_foldl ops _ ?_⟩
  simp [counterOk, DEFAULT_STORAGE_DATA]

/-- Closed witness for C10: one concrete preserved step and one concrete
operation sequence from the default ledger. -/
theorem ledger_counter_invariant_witness :
    counterOk (applyOp (DEFAULT_STORAGE_DATA 0) (.add "A" 1)) = true ∧
    counterOk ([LedgerOp.add "A" 1, LedgerOp.addMany ["A", "B"] 2,
      LedgerOp.clearAll 3].foldl applyOp (DEFAULT_STORAGE_DATA 0)) = true :=
  ⟨(ledger_counter_invariant [] (DEFAULT_STORAGE_DATA 0) (.add "A" 1) 0).1 (by decide),
    (ledger_counter_invariant [LedgerOp.add "A" 1, LedgerOp.addMany ["A", "B"] 2,
      LedgerOp.clearAll 3] (DEFAULT_STORAGE_DATA 0) (.clearAll 0) 0).2⟩

end TassieBot
